import Mathlib

/-!
Verification development for a 5×5 Tic-Tac-Toe variant with fixed board
obstacles.  The repository's presentation layer lives in `src/main.py`
(`GameCell`, `GameGrid`, `TicTacToeLayout`, `create_game`); the game engine
(`Board`, `GameController`, `GameState` in `board.py` / `controller.py`) is
imported by `main.py` but its source is not in the repository snapshot, so
those parts are modelled from the specification.

Python objects are embedded as immutable Lean structures; methods that mutate
an object in place become functions returning the updated value.  Observer
notifications become explicit lists of events returned by the engine
operations.  Kivy colors (4-tuples of floats whose exact values here are the
exact decimals 0, 0.3, 0.7, 1) are embedded as 4-tuples of rationals.
-/

/-- Modelled from the spec (§3, §9): the `GameState` enum from `controller.py`
(not under `src/`), with members IN_PROGRESS, X_WON, O_WON, DRAW. -/
inductive GameState where
  | IN_PROGRESS
  | X_WON
  | O_WON
  | DRAW
deriving DecidableEq, Repr

/-- The Python enum member name (`state.name`), as used by
`TicTacToeLayout.on_state_change` in `src/main.py` line 159. -/
def GameState.pyName : GameState → String
  | .IN_PROGRESS => "IN_PROGRESS"
  | .X_WON => "X_WON"
  | .O_WON => "O_WON"
  | .DRAW => "DRAW"

/-- Modelled from the spec (§3): the two players; `current_turn` is one of
{X, O}. -/
inductive Player where
  | X
  | O
deriving DecidableEq, Repr

/-- The symbol string written on the board for a player. -/
def Player.symbol : Player → String
  | .X => "X"
  | .O => "O"

/-- The other player (turn alternation). -/
def Player.other : Player → Player
  | .X => .O
  | .O => .X

/-- A Kivy color: r, g, b, a components. -/
abbrev Color := Rat × Rat × Rat × Rat

/-! ### GameCell (src/main.py lines 34-45)

A `GameCell` is a Kivy `Button` holding its own coordinates (`_row`, `_col`,
set once in `__init__` and exposed read-only through the `coords` property).
The Button attributes touched by this program are `text`, `color`,
`disabled`, `background_color` and the bound `on_release` handler; handlers
are identified by an abstract numeric id. -/

structure GameCell where
  row : Int
  col : Int
  text : String := ""
  color : Color := (1, 1, 1, 1)
  disabled : Bool := false
  background_color : Color := (1, 1, 1, 1)
  on_release : Option Nat := none
deriving DecidableEq, Repr

/-- `GameCell.__init__(row, col)` (src/main.py lines 37-40): stores the
coordinates; every Button attribute keeps its construction default. -/
def GameCell.init (row col : Int) : GameCell :=
  { row := row, col := col }

/-- The read-only `coords` property (src/main.py lines 43-45). -/
def GameCell.coords (c : GameCell) : Int × Int :=
  (c.row, c.col)

/-- `cell.bind(on_release=on_press)` (src/main.py line 86). -/
def GameCell.bindOnRelease (c : GameCell) (h : Nat) : GameCell :=
  { c with on_release := some h }

/-! ### Python string split, head

`state.name.split('_')[0]` (src/main.py line 159): for a non-empty separator,
element 0 of Python's `str.split` is exactly the prefix of the string before
its first occurrence of the separator (the whole string when the separator
does not occur).  Embedded directly on the character list so that it
evaluates in the kernel. -/

def pySplitHeadAux : List Char → List Char
  | [] => []
  | c :: rest => if c = '_' then [] else c :: pySplitHeadAux rest

/-- `s.split('_')[0]` in Python. -/
def pySplitHead (s : String) : String :=
  String.mk (pySplitHeadAux s.data)

/-! ### Board

Modelled from the spec (§3, §4.1): `board.py` is not under `src/`.  The board
owns `rows`, `cols`, the immutable obstacle set, and a mapping from
coordinates to {EMPTY, X, O}; EMPTY is `none`, an X/O mark is `some p`.
Coordinates are Python ints, hence `Int`. -/

structure Board where
  rows : Nat
  cols : Nat
  obstacles : List (Int × Int)
  cellAt : Int → Int → Option Player

/-- Modelled from the spec (§3): every coordinate is within
`[0, rows) × [0, cols)`. -/
def Board.inRange (b : Board) (r c : Int) : Bool :=
  0 ≤ r && r < (b.rows : Int) && 0 ≤ c && c < (b.cols : Int)

/-- Modelled from the spec (§4.1): `is_obstacle(row, col)` — true iff the
coordinate is a fixed obstacle. -/
def Board.is_obstacle (b : Board) (r c : Int) : Bool :=
  (r, c) ∈ b.obstacles

/-- The raw cell write underlying `Board.set`: mark (r, c) with p. -/
def Board.place (b : Board) (r c : Int) (p : Player) : Board :=
  { b with cellAt := fun r' c' => if r' = r ∧ c' = c then some p else b.cellAt r' c' }

/-- Modelled from the spec (§7): the error taxonomy of `Board.set`. -/
inductive MoveError where
  | OutOfRange
  | IllegalMove
deriving DecidableEq, Repr

/-- Modelled from the spec (§4.1): `set(row, col, symbol)` writes X or O into
a non-obstacle, currently-EMPTY, in-range cell; otherwise fails with
`OutOfRange` / `IllegalMove` and performs no mutation. -/
def Board.set (b : Board) (r c : Int) (p : Player) : Except MoveError Board :=
  if ¬ b.inRange r c then .error .OutOfRange
  else if b.is_obstacle r c ∨ (b.cellAt r c).isSome then .error .IllegalMove
  else .ok (b.place r c p)

/-- Modelled from the spec (§4.1): `reset()` sets every non-obstacle cell
back to EMPTY; the obstacle layout is untouched.  (Obstacles live in their
own mask here, so the whole mark mapping is cleared.) -/
def Board.resetCells (b : Board) : Board :=
  { b with cellAt := fun _ _ => none }

/-- Modelled from the spec (§4.1): enumeration of all coordinates of the
grid, row-major, as the draw check walks them. -/
def Board.allCoords (b : Board) : List (Int × Int) :=
  (List.range b.rows).flatMap fun i : Nat =>
    (List.range b.cols).map fun j : Nat => (((i : Int), (j : Int)) : Int × Int)

/-- Modelled from the spec (§4.1): `is_full()` — true iff every non-obstacle
cell is occupied by X or O. -/
def Board.is_full (b : Board) : Bool :=
  b.allCoords.all fun rc => b.is_obstacle rc.1 rc.2 || (b.cellAt rc.1 rc.2).isSome

/-! ### GameGrid (src/main.py lines 48-102)

The widget owning the full board of `GameCell`s.  `self._cells` is a Python
dict keyed by `(i, j)`; it is embedded as an association list in insertion
order (Python dicts preserve insertion order and hold one entry per key). -/

/-- `dict[k]` lookup on the association-list embedding of `self._cells`. -/
def dictGet (k : Int × Int) : List ((Int × Int) × GameCell) → Option GameCell
  | [] => none
  | (k', c) :: rest => if k' = k then some c else dictGet k rest

structure GameGrid where
  rows : Nat
  cols : Nat
  cells : List ((Int × Int) × GameCell)

/-- `GameGrid._paint_obstacle` (src/main.py lines 91-95). -/
def GameGrid.paintObstacle (cell : GameCell) : GameCell :=
  { cell with text := "#", disabled := true, background_color := (0.7, 0.7, 0.7, 1) }

/-- `GameGrid._paint_blank` (src/main.py lines 97-102). -/
def GameGrid.paintBlank (cell : GameCell) : GameCell :=
  { cell with text := "", disabled := false,
              background_color := (1, 1, 1, 1), color := (0, 0, 0, 1) }

/-- `GameGrid.reset` (src/main.py lines 65-70): walk every dict entry and
repaint it as obstacle or blank according to the board. -/
def GameGrid.reset (g : GameGrid) (board : Board) : GameGrid :=
  { g with cells := g.cells.map fun e =>
      (e.1, if board.is_obstacle e.1.1 e.1.2 then GameGrid.paintObstacle e.2
            else GameGrid.paintBlank e.2) }

/-- The repaint `GameGrid.update_cell` applies to the one cell at `coords`
(src/main.py lines 72-76): text := symbol, color red for "X" and blue
otherwise, disabled. -/
def GameGrid.paintMove (cell : GameCell) (symbol : String) : GameCell :=
  { cell with text := symbol,
              color := if symbol = "X" then (1, 0, 0, 1) else (0, 0, 1, 1),
              disabled := true }

/-- `GameGrid.update_cell` (src/main.py lines 72-76): mutate the dict entry
at `coords` in place; all other entries are untouched. -/
def GameGrid.update_cell (g : GameGrid) (coords : Int × Int) (symbol : String) : GameGrid :=
  { g with cells := g.cells.map fun e =>
      if e.1 = coords then (e.1, GameGrid.paintMove e.2 symbol) else e }

/-- One iteration row of `GameGrid._build_cells` (src/main.py lines 83-88):
`for j in range(cols)` building the cells of row `i` in order, each bound to
the press handler and inserted into the dict.  `buildRow h i n` is the list
after the first `n` iterations. -/
def buildRow (onPress : Nat) (i : Nat) : Nat → List ((Int × Int) × GameCell)
  | 0 => []
  | n + 1 => buildRow onPress i n ++
      [(((i : Int), (n : Int)), (GameCell.init i n).bindOnRelease onPress)]

/-- The outer loop of `GameGrid._build_cells`: `for i in range(rows)`.
`buildRows h cols n` is the dict contents after the first `n` rows. -/
def buildRows (onPress : Nat) (cols : Nat) : Nat → List ((Int × Int) × GameCell)
  | 0 => []
  | n + 1 => buildRows onPress cols n ++ buildRow onPress n cols

/-- `GameGrid.__init__` + `_build_cells` (src/main.py lines 56-59, 82-89):
build one `GameCell` per board coordinate in row-major insertion order, bind
each to the press handler, then `self.reset(board)` repaints the new board. -/
def GameGrid.init (board : Board) (onPress : Nat) : GameGrid :=
  GameGrid.reset
    { rows := board.rows, cols := board.cols,
      cells := buildRows onPress board.cols board.rows }
    board

/-! ### GameController

Modelled from the spec (§3, §4.2): `controller.py` is not under `src/`.
Observer notifications are returned as an explicit event list in firing
order; observers themselves are opaque handles. -/

/-- The terminal state awarded to the mover (§4.2 step 4). -/
def Player.wonState : Player → GameState
  | .X => .X_WON
  | .O => .O_WON

/-- Modelled from the spec (§4.2 step 4): the four scan directions —
horizontal, vertical and both diagonals. -/
def winDirs : List (Int × Int) := [(0, 1), (1, 0), (1, 1), (1, -1)]

/-- The 5 consecutive coordinates of one candidate line: starting offset `k`
steps along direction `(dr, dc)` from the just-played cell. -/
def lineCells (r c dr dc k : Int) : List (Int × Int) :=
  (List.range 5).map fun i => (r + (k + (i : Int)) * dr, c + (k + (i : Int)) * dc)

/-- Modelled from the spec (§4.2 step 4): win detection scans all lines of
length 5 in the four directions through the just-played cell; a line counts
only if every one of its 5 consecutive cells is in range, non-obstacle, and
holds the symbol just played. -/
def Board.winAt (b : Board) (r c : Int) (p : Player) : Bool :=
  winDirs.any fun d =>
    ([-4, -3, -2, -1, 0] : List Int).any fun k =>
      (lineCells r c d.1 d.2 k).all fun rc =>
        b.inRange rc.1 rc.2 && !b.is_obstacle rc.1 rc.2 &&
          decide (b.cellAt rc.1 rc.2 = some p)

/-- Modelled from the spec (§3, §9): an opaque observer handle; the only
observer this program ever registers is the `TicTacToeLayout` presenter. -/
inductive ObserverRef where
  | layoutObs
deriving DecidableEq, Repr

/-- Modelled from the spec (§6): the two observer callbacks, as events in
firing order.  `next_turn` carries a defined value only with IN_PROGRESS. -/
inductive Notification where
  | board_change (coords : Int × Int) (symbol : String)
  | state_change (state : GameState) (next_turn : Option Player)
deriving DecidableEq, Repr

structure GameController where
  board : Board
  current_turn : Player
  state : GameState
  observers : List ObserverRef

/-- Modelled from the spec (§3): `GameController(board)` — `current_turn`
starts at X, `state` starts IN_PROGRESS, no observers yet. -/
def GameController.init (b : Board) : GameController :=
  { board := b, current_turn := .X, state := .IN_PROGRESS, observers := [] }

/-- Modelled from the spec (§4.2): `register(observer)` appends to the
notification list (insertion order = notification order). -/
def GameController.register (g : GameController) (o : ObserverRef) : GameController :=
  { g with observers := g.observers ++ [o] }

/-- Modelled from the spec (§4.2): `play(row, col)`.  Steps: (1) no-op when
the state is not IN_PROGRESS; (2) attempt `board.set`, propagating failure
with no mutation or notification; (3) on success fire `board_change`;
(4) win for the symbol just placed, else (5) draw when the board is full,
else (6) flip the turn; (7) fire `state_change` once. -/
def GameController.play (g : GameController) (row col : Int) :
    GameController × List Notification :=
  match g.state with
  | .IN_PROGRESS =>
    match g.board.set row col g.current_turn with
    | .error _ => (g, [])
    | .ok b' =>
      let p := g.current_turn
      let moveNote := Notification.board_change (row, col) p.symbol
      if b'.winAt row col p then
        ({ g with board := b', state := p.wonState },
          [moveNote, .state_change p.wonState none])
      else if b'.is_full then
        ({ g with board := b', state := .DRAW },
          [moveNote, .state_change .DRAW none])
      else
        ({ g with board := b', current_turn := p.other },
          [moveNote, .state_change .IN_PROGRESS (some p.other)])
  | _ => (g, [])

/-- Modelled from the spec (§3, §4.2): `reset()` — board playable cells
cleared, `current_turn` X, `state` IN_PROGRESS, observers kept; one
`state_change` notification, no board-change repaint. -/
def GameController.reset (g : GameController) : GameController × List Notification :=
  ({ g with board := g.board.resetCells, current_turn := .X, state := .IN_PROGRESS },
    [.state_change .IN_PROGRESS (some .X)])

/-- A sequence of `play` calls, accumulating notifications in firing order. -/
def GameController.playSeq (g : GameController) :
    List (Int × Int) → GameController × List Notification
  | [] => (g, [])
  | m :: ms =>
    let step := g.play m.1 m.2
    let rest := step.1.playSeq ms
    (rest.1, step.2 ++ rest.2)

/-! ### TicTacToeLayout, the presenter (src/main.py lines 109-176)

The presenter's widget state: the status `Label`, the restart `Button` and
the grid.  A pending `Clock.schedule_once(_show_restart, 0.3)` callback is
recorded as a flag.  `next_turn` arrives already rendered to its display
string (the engine value is only ever interpolated into an f-string). -/

structure LabelState where
  text : String
deriving DecidableEq, Repr

structure ButtonState where
  text : String
  disabled : Bool
  opacity : Rat
deriving DecidableEq, Repr

structure TicTacToeLayout where
  status_message : String
  board : Board
  grid : GameGrid
  statusLabel : LabelState
  restartBtn : ButtonState
  pendingShowRestart : Bool

/-- `_hide_restart` (src/main.py lines 174-176). -/
def TicTacToeLayout.hideRestart (l : TicTacToeLayout) : TicTacToeLayout :=
  { l with restartBtn := { l.restartBtn with disabled := true, opacity := 0 } }

/-- `_show_restart` (src/main.py lines 170-172). -/
def TicTacToeLayout.showRestart (l : TicTacToeLayout) : TicTacToeLayout :=
  { l with restartBtn := { l.restartBtn with disabled := false, opacity := 1 } }

/-- `_end_game` (src/main.py lines 167-168): schedules `_show_restart` 0.3 s
later; recorded as the pending-callback flag. -/
def TicTacToeLayout.endGame (l : TicTacToeLayout) : TicTacToeLayout :=
  { l with pendingShowRestart := true }

/-- `on_state_change` (src/main.py lines 154-161): set `status_message` from
the state (and `next_turn` when IN_PROGRESS), hide the restart button while
in progress or schedule its reveal at game end, then copy the message into
the status label's text. -/
def TicTacToeLayout.on_state_change (l : TicTacToeLayout) (state : GameState)
    (next_turn : String) : TicTacToeLayout :=
  let l1 :=
    if state = .IN_PROGRESS then
      TicTacToeLayout.hideRestart { l with status_message := next_turn ++ "'s turn" }
    else
      TicTacToeLayout.endGame
        { l with status_message :=
            if state = .DRAW then "Draw!" else pySplitHead state.pyName ++ " wins!" }
  { l1 with statusLabel := { l1.statusLabel with text := l1.status_message } }

/-- `on_board_change` (src/main.py lines 151-152): delegate to
`GameGrid.update_cell`. -/
def TicTacToeLayout.on_board_change (l : TicTacToeLayout) (coords : Int × Int)
    (symbol : String) : TicTacToeLayout :=
  { l with grid := l.grid.update_cell coords symbol }

/-- `_on_restart` (src/main.py lines 142-145): `controller.reset()`, then the
presenter itself repaints the whole grid with `self._grid.reset(self._board)`
(`self._board` aliases the controller's board, so the reference it already
holds reads the freshly reset board), then `_hide_restart()`. -/
def TicTacToeLayout.on_restart (c : GameController) (l : TicTacToeLayout) :
    GameController × TicTacToeLayout :=
  let rc := GameController.reset c
  let l1 := { l with grid := l.grid.reset rc.1.board }
  (rc.1, l1.hideRestart)

/-- The handler id of `TicTacToeLayout._on_cell_pressed`, the press handler
every grid cell is bound to (src/main.py line 120). -/
def onCellPressedId : Nat := 0

/-- The construction steps of `TicTacToeLayout.__init__` (src/main.py lines
114-133) in source order: build the grid component, the status label and the
restart button, add the widgets, and only then register with the controller
("observe after widgets ready"). -/
inductive InitStep where
  | buildGrid
  | buildStatusLabel
  | buildRestartButton
  | addWidgets
  | registerObserver
deriving DecidableEq, Repr

def TicTacToeLayout.initTrace : List InitStep :=
  [.buildGrid, .buildStatusLabel, .buildRestartButton, .addWidgets, .registerObserver]

/-- `TicTacToeLayout.__init__` (src/main.py lines 114-133): take the ready
controller, alias its board, build the grid bound to `_on_cell_pressed`, the
status label showing the initial `status_message` "X's turn", the hidden
disabled restart button, and finally register this layout as an observer.
Returns the built layout together with the controller as mutated by
`register`. -/
def TicTacToeLayout.init (c : GameController) : TicTacToeLayout × GameController :=
  let board := c.board
  let grid := GameGrid.init board onCellPressedId
  let statusLabel : LabelState := { text := "X's turn" }
  let restartBtn : ButtonState := { text := "Restart", disabled := true, opacity := 0 }
  let l : TicTacToeLayout :=
    { status_message := "X's turn", board := board, grid := grid,
      statusLabel := statusLabel, restartBtn := restartBtn,
      pendingShowRestart := false }
  (l, c.register .layoutObs)

/-! ### create_game (src/main.py lines 183-188) -/

/-- Modelled from the spec (§3, §6): `Board()` as constructed by
`create_game` — a 5×5 board whose fixed obstacle layout comes from
`board.py` (not under `src/`), so it stays a parameter here; all non-obstacle
cells start EMPTY. -/
def Board.defaultBoard (obstacles : List (Int × Int)) : Board :=
  { rows := 5, cols := 5, obstacles := obstacles, cellAt := fun _ _ => none }

/-- The three objects wired by `create_game`; the Python heap holds them by
reference, the embedding returns them all so the wiring can be inspected. -/
structure GameApp where
  board : Board
  controller : GameController
  layout : TicTacToeLayout

/-- `create_game` (src/main.py lines 183-188): `Board → GameController →
View`, in dependency order. -/
def create_game (obstacles : List (Int × Int)) : GameApp :=
  let board := Board.defaultBoard obstacles
  let controller := GameController.init board
  let built := TicTacToeLayout.init controller
  { board := board, controller := built.2, layout := built.1 }

/-! ### Concrete fixtures used to evaluate the development on closed inputs -/

/-- A 5×5 board with a single obstacle at the centre. -/
def sampleBoard : Board := Board.defaultBoard [(2, 2)]

/-- The presenter as built against a fresh controller on `sampleBoard`. -/
def sampleLayout : TicTacToeLayout :=
  (TicTacToeLayout.init (GameController.init sampleBoard)).1

/-- A controller in a terminal state (X has won). -/
def wonController : GameController :=
  { board := Board.defaultBoard [], current_turn := .O, state := .X_WON,
    observers := [.layoutObs] }

/-- Obstacles on every cell of rows 1-4: only row 0 is playable. -/
def rowObstacles : List (Int × Int) :=
  [(1, 0), (1, 1), (1, 2), (1, 3), (1, 4),
   (2, 0), (2, 1), (2, 2), (2, 3), (2, 4),
   (3, 0), (3, 1), (3, 2), (3, 3), (3, 4),
   (4, 0), (4, 1), (4, 2), (4, 3), (4, 4)]

/-- A board one move away from X winning on row 0 while filling the last
playable cell: X already owns (0,0)-(0,3); (0,4) is the only empty
non-obstacle cell. -/
def winBoard : Board :=
  { rows := 5, cols := 5, obstacles := rowObstacles,
    cellAt := fun r c => if r = 0 ∧ (0 ≤ c ∧ c ≤ 3) then some .X else none }

/-- A controller about to accept X's winning and board-filling move. -/
def winController : GameController :=
  { board := winBoard, current_turn := .X, state := .IN_PROGRESS, observers := [] }

/-- A small 2×2 board with one obstacle, for evaluating the grid widget. -/
def smallBoard : Board :=
  { rows := 2, cols := 2, obstacles := [(0, 1)], cellAt := fun _ _ => none }

/-! ## Helper lemmas about the cell dictionary -/

theorem dictGet_append_some (k : Int × Int) (c : GameCell) :
    ∀ l1 l2 : List ((Int × Int) × GameCell),
      dictGet k l1 = some c → dictGet k (l1 ++ l2) = some c
  | [], _, h => by simp [dictGet] at h
  | (k', c') :: rest, l2, h => by
    by_cases hk : k' = k
    · simpa [dictGet, hk] using h
    · simp only [dictGet, if_neg hk, List.cons_append] at h ⊢
      exact dictGet_append_some k c rest l2 h

theorem dictGet_append_none (k : Int × Int) :
    ∀ l1 l2 : List ((Int × Int) × GameCell),
      dictGet k l1 = none → dictGet k (l1 ++ l2) = dictGet k l2
  | [], _, _ => rfl
  | (k', c') :: rest, l2, h => by
    by_cases hk : k' = k
    · simp [dictGet, hk] at h
    · simp only [dictGet, if_neg hk, List.cons_append] at h ⊢
      exact dictGet_append_none k rest l2 h

theorem dictGet_buildRow_none (hnd i : Nat) (x y : Int) :
    ∀ n : Nat, (x ≠ (i : Int) ∨ y < 0 ∨ (n : Int) ≤ y) →
      dictGet (x, y) (buildRow hnd i n) = none
  | 0, _ => rfl
  | n + 1, h => by
    have hrec : dictGet (x, y) (buildRow hnd i n) = none := by
      refine dictGet_buildRow_none hnd i x y n ?_
      rcases h with h | h | h
      · exact Or.inl h
      · exact Or.inr (Or.inl h)
      · refine Or.inr (Or.inr ?_)
        omega
    rw [buildRow, dictGet_append_none _ _ _ hrec]
    have hne : (((i : Int), (n : Int)) : Int × Int) ≠ (x, y) := by
      intro heq
      rw [Prod.mk.injEq] at heq
      rcases h with h | h | h <;> omega
    simp [dictGet, hne]

theorem dictGet_buildRow_some (hnd i j : Nat) :
    ∀ n : Nat, j < n →
      dictGet ((i : Int), (j : Int)) (buildRow hnd i n) =
        some ((GameCell.init i j).bindOnRelease hnd)
  | n + 1, hj => by
    rcases Nat.lt_succ_iff_lt_or_eq.1 hj with h | h
    · rw [buildRow]
      exact dictGet_append_some _ _ _ _ (dictGet_buildRow_some hnd i j n h)
    · subst h
      rw [buildRow, dictGet_append_none _ _ _
        (dictGet_buildRow_none hnd i _ _ _ (Or.inr (Or.inr (le_refl _))))]
      simp [dictGet]

theorem dictGet_buildRows_none (hnd cols : Nat) (x y : Int) :
    ∀ n : Nat, (x < 0 ∨ (n : Int) ≤ x) →
      dictGet (x, y) (buildRows hnd cols n) = none
  | 0, _ => rfl
  | n + 1, h => by
    have hrec : dictGet (x, y) (buildRows hnd cols n) = none := by
      refine dictGet_buildRows_none hnd cols x y n ?_
      rcases h with h | h
      · exact Or.inl h
      · exact Or.inr (by omega)
    rw [buildRows, dictGet_append_none _ _ _ hrec]
    refine dictGet_buildRow_none hnd n x y cols (Or.inl ?_)
    rcases h with h | h <;> omega

theorem dictGet_buildRows_some (hnd cols i j : Nat) (hj : j < cols) :
    ∀ n : Nat, i < n →
      dictGet ((i : Int), (j : Int)) (buildRows hnd cols n) =
        some ((GameCell.init i j).bindOnRelease hnd)
  | n + 1, hi => by
    rcases Nat.lt_succ_iff_lt_or_eq.1 hi with h | h
    · rw [buildRows]
      exact dictGet_append_some _ _ _ _ (dictGet_buildRows_some hnd cols i j hj n h)
    · subst h
      rw [buildRows, dictGet_append_none _ _ _
        (dictGet_buildRows_none hnd cols _ _ _ (Or.inr (le_refl _)))]
      exact dictGet_buildRow_some hnd i j cols hj

theorem keys_buildRow (hnd i : Nat) :
    ∀ n : Nat, (buildRow hnd i n).map Prod.fst =
      (List.range n).map fun j : Nat => (((i : Int), (j : Int)) : Int × Int)
  | 0 => rfl
  | n + 1 => by
    rw [buildRow, List.map_append, keys_buildRow hnd i n, List.range_succ,
      List.map_append]
    rfl

theorem keys_buildRows (hnd cols : Nat) :
    ∀ n : Nat, (buildRows hnd cols n).map Prod.fst =
      (List.range n).flatMap fun i : Nat =>
        (List.range cols).map fun j : Nat => (((i : Int), (j : Int)) : Int × Int)
  | 0 => rfl
  | n + 1 => by
    rw [buildRows, List.map_append, keys_buildRows hnd cols n, List.range_succ,
      List.flatMap_append, keys_buildRow]
    simp

theorem length_buildRow (hnd i : Nat) : ∀ n : Nat, (buildRow hnd i n).length = n
  | 0 => rfl
  | n + 1 => by rw [buildRow, List.length_append, length_buildRow hnd i n]; rfl

theorem length_buildRows (hnd cols : Nat) :
    ∀ n : Nat, (buildRows hnd cols n).length = n * cols
  | 0 => by simp [buildRows]
  | n + 1 => by
    rw [buildRows, List.length_append, length_buildRows hnd cols n,
      length_buildRow, Nat.succ_mul]

/-- The keys of the cell dict are untouched by the per-entry repaint of
`GameGrid.reset`. -/
theorem keys_resetList (board : Board) :
    ∀ l : List ((Int × Int) × GameCell),
      ((l.map fun e =>
        (e.1, if board.is_obstacle e.1.1 e.1.2 then GameGrid.paintObstacle e.2
              else GameGrid.paintBlank e.2)).map Prod.fst) = l.map Prod.fst
  | [] => rfl
  | e :: rest => by
    simp only [List.map_cons, keys_resetList board rest]

/-- The keys of the cell dict are untouched by `GameGrid.update_cell`. -/
theorem keys_updList (coords : Int × Int) (s : String) :
    ∀ l : List ((Int × Int) × GameCell),
      ((l.map fun e =>
        if e.1 = coords then (e.1, GameGrid.paintMove e.2 s) else e).map Prod.fst) =
      l.map Prod.fst
  | [] => rfl
  | e :: rest => by
    by_cases h : e.1 = coords <;>
      simp [h, keys_updList coords s rest]

/-- Lookup after the `GameGrid.reset` repaint: every present entry is
repainted according to the obstacle mask at its own key. -/
theorem dictGet_resetList (board : Board) (k : Int × Int) :
    ∀ l : List ((Int × Int) × GameCell),
      dictGet k (l.map fun e =>
        (e.1, if board.is_obstacle e.1.1 e.1.2 then GameGrid.paintObstacle e.2
              else GameGrid.paintBlank e.2)) =
      (dictGet k l).map fun c =>
        if board.is_obstacle k.1 k.2 then GameGrid.paintObstacle c
        else GameGrid.paintBlank c
  | [] => rfl
  | (k', c) :: rest => by
    by_cases h : k' = k
    · subst h
      simp [dictGet]
    · simp [dictGet, h, dictGet_resetList board k rest]

theorem dictGet_cons (k k' : Int × Int) (c : GameCell)
    (t : List ((Int × Int) × GameCell)) :
    dictGet k ((k', c) :: t) = if k' = k then some c else dictGet k t := rfl

theorem map_updEntry_cons (coords : Int × Int) (s : String) (k' : Int × Int)
    (c : GameCell) (rest : List ((Int × Int) × GameCell)) :
    (((k', c) :: rest).map fun e =>
        if e.1 = coords then (e.1, GameGrid.paintMove e.2 s) else e) =
      (if k' = coords then (k', GameGrid.paintMove c s) else (k', c)) ::
        (rest.map fun e =>
          if e.1 = coords then (e.1, GameGrid.paintMove e.2 s) else e) := by
  by_cases h : k' = coords <;> simp [h]

/-- Lookup after `GameGrid.update_cell`: the entry at `coords` is repainted
with the move, every other entry is returned unchanged. -/
theorem dictGet_updList (coords : Int × Int) (s : String) (k : Int × Int) :
    ∀ l : List ((Int × Int) × GameCell),
      dictGet k (l.map fun e =>
        if e.1 = coords then (e.1, GameGrid.paintMove e.2 s) else e) =
      if k = coords then (dictGet k l).map fun c => GameGrid.paintMove c s
      else dictGet k l
  | [] => by by_cases h : k = coords <;> simp [dictGet, h]
  | (k', c) :: rest => by
    have ih := dictGet_updList coords s k rest
    rw [map_updEntry_cons]
    by_cases h1 : k' = coords
    · rw [if_pos h1]
      simp only [dictGet_cons]
      by_cases h2 : k' = k
      · rw [if_pos h2, if_pos h2, if_pos (h2.symm.trans h1)]
        rfl
      · rw [if_neg h2, if_neg h2, ih]
    · rw [if_neg h1]
      simp only [dictGet_cons]
      by_cases h2 : k' = k
      · rw [if_pos h2, if_pos h2, if_neg (fun hh : k = coords => h1 (h2.trans hh))]
      · rw [if_neg h2, if_neg h2, ih]

/-- The row-major enumeration of the grid has no repeated coordinate. -/
theorem allCoords_nodup (b : Board) : b.allCoords.Nodup := by
  unfold Board.allCoords
  refine List.nodup_flatMap.2 ⟨fun i _ => ?_, ?_⟩
  · refine (List.nodup_range b.cols).map ?_
    intro a a' h
    simpa [Prod.ext_iff] using h
  · refine (List.nodup_range b.rows).imp ?_
    intro a a' haa x hxa hxa'
    simp only [List.mem_map] at hxa hxa'
    obtain ⟨j1, _, rfl⟩ := hxa
    obtain ⟨j2, _, heq⟩ := hxa'
    rw [Prod.mk.injEq] at heq
    exact haa (by exact_mod_cast heq.1.symm)

/-- Every key of a built row has its second component in `[0, cols)`. -/
theorem dictGet_buildRows_ycol_none (hnd cols : Nat) (x y : Int)
    (hy : y < 0 ∨ (cols : Int) ≤ y) :
    ∀ n : Nat, dictGet (x, y) (buildRows hnd cols n) = none
  | 0 => rfl
  | n + 1 => by
    rw [buildRows,
      dictGet_append_none _ _ _ (dictGet_buildRows_ycol_none hnd cols x y hy n)]
    exact dictGet_buildRow_none hnd n x y cols (Or.inr hy)

/-- The cell dict of a built grid holds no key outside the grid range. -/
theorem dictGet_buildRows_outside (hnd cols n : Nat) (x y : Int)
    (h : ¬(0 ≤ x ∧ x < (n : Int) ∧ 0 ≤ y ∧ y < (cols : Int))) :
    dictGet (x, y) (buildRows hnd cols n) = none := by
  by_cases hx : 0 ≤ x ∧ x < (n : Int)
  · refine dictGet_buildRows_ycol_none hnd cols x y ?_ n
    by_contra hy
    push_neg at hy
    exact h ⟨hx.1, hx.2, hy.1, hy.2⟩
  · refine dictGet_buildRows_none hnd cols x y n ?_
    omega

/-- Every cell inserted by `_build_cells` is bound to the press handler. -/
theorem onRelease_buildRow (hnd i : Nat) :
    ∀ n : Nat, ∀ e ∈ buildRow hnd i n, e.2.on_release = some hnd
  | 0, e, he => by simp [buildRow] at he
  | n + 1, e, he => by
    rw [buildRow] at he
    rcases List.mem_append.1 he with h | h
    · exact onRelease_buildRow hnd i n e h
    · simp only [List.mem_singleton] at h
      subst h
      rfl

theorem onRelease_buildRows (hnd cols : Nat) :
    ∀ n : Nat, ∀ e ∈ buildRows hnd cols n, e.2.on_release = some hnd
  | 0, e, he => by simp [buildRows] at he
  | n + 1, e, he => by
    rw [buildRows] at he
    rcases List.mem_append.1 he with h | h
    · exact onRelease_buildRows hnd cols n e h
    · exact onRelease_buildRow hnd n cols e h

/-- The repaint applied by `GameGrid.reset` never touches the bound press
handler. -/
theorem onRelease_resetPaint (board : Board) (k : Int × Int) (c : GameCell) :
    (if board.is_obstacle k.1 k.2 then GameGrid.paintObstacle c
     else GameGrid.paintBlank c).on_release = c.on_release := by
  by_cases h : board.is_obstacle k.1 k.2 <;> simp [h, GameGrid.paintObstacle,
    GameGrid.paintBlank]

/-! ## Claims -/

/-- C1: for every call `TicTacToeLayout.on_state_change(state, next_turn)`,
the presenter's status message becomes "{next_turn}'s turn" when the state is
IN_PROGRESS, "Draw!" on DRAW, and on X_WON / O_WON the label obtained by
splitting the GameState name at the underscore and taking the first part,
followed by " wins!" — that is, "X wins!" and "O wins!"; the message is then
copied into the status label.  The rendering is computed by the presenter
`TicTacToeLayout`, an external collaborator of the engine. -/
theorem C1_on_state_change_messages (l : TicTacToeLayout) (nt : String) :
    (l.on_state_change .IN_PROGRESS nt).status_message = nt ++ "'s turn" ∧
    (l.on_state_change .DRAW nt).status_message = "Draw!" ∧
    (l.on_state_change .X_WON nt).status_message =
      pySplitHead (GameState.pyName .X_WON) ++ " wins!" ∧
    (l.on_state_change .O_WON nt).status_message =
      pySplitHead (GameState.pyName .O_WON) ++ " wins!" ∧
    (l.on_state_change .X_WON nt).status_message = "X wins!" ∧
    (l.on_state_change .O_WON nt).status_message = "O wins!" ∧
    ∀ s : GameState, (l.on_state_change s nt).statusLabel.text =
      (l.on_state_change s nt).status_message :=
  ⟨rfl, rfl, rfl, rfl, rfl, rfl, fun s => by cases s <;> rfl⟩

/-- C2: when the state is not IN_PROGRESS, `on_state_change` leaves the
presenter in a state independent of the `next_turn` argument: status message,
label text, restart-button state and the pending restart reveal are all
identical for any two `next_turn` values. -/
theorem C2_terminal_ignores_next_turn (l : TicTacToeLayout) (state : GameState)
    (hs : state ≠ .IN_PROGRESS) (t1 t2 : String) :
    l.on_state_change state t1 = l.on_state_change state t2 := by
  cases state with
  | IN_PROGRESS => exact absurd rfl hs
  | X_WON => rfl
  | O_WON => rfl
  | DRAW => rfl

theorem C2_witness :
    GameState.DRAW ≠ GameState.IN_PROGRESS ∧
    sampleLayout.on_state_change .DRAW "X" = sampleLayout.on_state_change .DRAW "O" :=
  ⟨by decide, C2_terminal_ignores_next_turn sampleLayout .DRAW (by decide) "X" "O"⟩

/-- C3: `_on_restart` resets the controller, itself repaints the whole grid
by calling `GameGrid.reset` with the board reference the presenter already
holds (which, being the controller's own board, reads the freshly reset
board), and hides the restart button; and no `on_state_change` notification
ever touches the grid, so the repaint cannot come from an engine
notification. -/
theorem C3_restart_repaints_in_presenter (c : GameController) (l : TicTacToeLayout) :
    (TicTacToeLayout.on_restart c l).1 = (GameController.reset c).1 ∧
    (TicTacToeLayout.on_restart c l).2.grid =
      l.grid.reset (GameController.reset c).1.board ∧
    (TicTacToeLayout.on_restart c l).2.restartBtn.disabled = true ∧
    (TicTacToeLayout.on_restart c l).2.restartBtn.opacity = 0 ∧
    ∀ (s : GameState) (nt : String), (l.on_state_change s nt).grid = l.grid :=
  ⟨rfl, rfl, rfl, rfl, fun s _ => by cases s <;> rfl⟩

/-- C5: once the controller's state is any value other than IN_PROGRESS,
every subsequent sequence of `play` calls is a no-op: the controller
(including its board) is returned unchanged and no notification is fired. -/
theorem C5_terminal_play_noop (g : GameController) (ms : List (Int × Int))
    (hs : g.state ≠ .IN_PROGRESS) :
    g.playSeq ms = (g, []) := by
  induction ms with
  | nil => rfl
  | cons m rest ih =>
    have hplay : g.play m.1 m.2 = (g, []) := by
      rcases g with ⟨b, t, st, obs⟩
      cases st with
      | IN_PROGRESS => exact absurd rfl hs
      | X_WON => rfl
      | O_WON => rfl
      | DRAW => rfl
    simp [GameController.playSeq, hplay, ih]

theorem C5_witness :
    wonController.state ≠ GameState.IN_PROGRESS ∧
    wonController.playSeq [(0, 0), (1, 1), (0, 0)] = (wonController, []) :=
  ⟨by decide, C5_terminal_play_noop wonController _ (by decide)⟩

/-- C7: `create_game` wires the components in dependency order: a Board, a
GameController bound to that Board, and a TicTacToeLayout whose constructor
leaves the controller with exactly one registered observer — the layout —
with registration the last construction step, after the widgets are built;
the freshly wired controller is still at the start of a round, before any
`play` call. -/
theorem C7_create_game_wiring (obstacles : List (Int × Int)) :
    (create_game obstacles).board = Board.defaultBoard obstacles ∧
    (create_game obstacles).controller.board = (create_game obstacles).board ∧
    (create_game obstacles).controller.observers = [.layoutObs] ∧
    (create_game obstacles).layout.board = (create_game obstacles).board ∧
    (create_game obstacles).layout.grid =
      GameGrid.init (create_game obstacles).board onCellPressedId ∧
    (create_game obstacles).controller.state = .IN_PROGRESS ∧
    (create_game obstacles).controller.current_turn = .X ∧
    TicTacToeLayout.initTrace.count .registerObserver = 1 ∧
    TicTacToeLayout.initTrace.getLast? = some .registerObserver :=
  ⟨rfl, rfl, rfl, rfl, rfl, rfl, rfl, by decide, rfl⟩

/-- C9: a `GameCell` constructed with (row, col) returns exactly (row, col)
from its `coords` property, and no operation of this program changes a
cell's coordinates after construction. -/
theorem C9_coords_roundtrip (row col : Int) (c : GameCell) (hnd : Nat) (s : String) :
    (GameCell.init row col).coords = (row, col) ∧
    ((GameCell.init row col).bindOnRelease hnd).coords = (row, col) ∧
    (c.bindOnRelease hnd).coords = c.coords ∧
    (GameGrid.paintObstacle c).coords = c.coords ∧
    (GameGrid.paintBlank c).coords = c.coords ∧
    (GameGrid.paintMove c s).coords = c.coords :=
  ⟨rfl, rfl, rfl, rfl, rfl, rfl⟩

/-- C6: for every accepted move, win evaluation for the symbol just placed
takes priority over draw evaluation: when the move completes a 5-in-a-row
for the mover, the state becomes X_WON / O_WON matching the mover and never
DRAW — in particular even when the move also fills the last playable cell
(`is_full` holds).  The fired notifications report the won state. -/
theorem C6_win_takes_priority_over_draw (g : GameController) (row col : Int)
    (hst : g.state = .IN_PROGRESS)
    (hin : g.board.inRange row col = true)
    (hob : g.board.is_obstacle row col = false)
    (hemp : g.board.cellAt row col = none)
    (hwin : (g.board.place row col g.current_turn).winAt row col g.current_turn = true)
    (hfull : (g.board.place row col g.current_turn).is_full = true) :
    (g.play row col).1.state = g.current_turn.wonState ∧
    (g.play row col).1.state ≠ .DRAW ∧
    (g.play row col).2 =
      [.board_change (row, col) g.current_turn.symbol,
       .state_change g.current_turn.wonState none] := by
  have hset : g.board.set row col g.current_turn =
      .ok (g.board.place row col g.current_turn) := by
    unfold Board.set
    rw [if_neg (by simp [hin]), if_neg (by simp [hob, hemp])]
  rcases g with ⟨b, t, st, obs⟩
  simp only at hst hin hob hemp hwin hfull hset
  subst hst
  simp only [GameController.play, hset, hwin, if_true]
  refine ⟨trivial, ?_, trivial⟩
  cases t <;> simp [Player.wonState]

theorem C6_witness :
    winController.state = GameState.IN_PROGRESS ∧
    winController.board.inRange 0 4 = true ∧
    winController.board.is_obstacle 0 4 = false ∧
    winController.board.cellAt 0 4 = none ∧
    (winController.board.place 0 4 winController.current_turn).winAt 0 4
      winController.current_turn = true ∧
    (winController.board.place 0 4 winController.current_turn).is_full = true ∧
    (winController.play 0 4).1.state = winController.current_turn.wonState ∧
    (winController.play 0 4).1.state ≠ GameState.DRAW :=
  ⟨rfl, by decide, by decide, by decide, by decide, by decide,
    (C6_win_takes_priority_over_draw winController 0 4 rfl (by decide) (by decide)
      (by decide) (by decide) (by decide)).1,
    (C6_win_takes_priority_over_draw winController 0 4 rfl (by decide) (by decide)
      (by decide) (by decide) (by decide)).2.1⟩

/-- C4: `on_board_change` delegates to `GameGrid.update_cell`, which modifies
exactly the cell at `coords` — text set to the symbol, color red when the
symbol is "X" and blue otherwise, disabled — while every other entry of the
grid dict (text, color, disabled flag and all) is unchanged. -/
theorem C4_update_cell_frame (l : TicTacToeLayout) (coords : Int × Int)
    (symbol : String) :
    (l.on_board_change coords symbol).grid = l.grid.update_cell coords symbol ∧
    dictGet coords (l.grid.update_cell coords symbol).cells =
      (dictGet coords l.grid.cells).map (fun cell =>
        { cell with text := symbol,
                    color := if symbol = "X" then ((1, 0, 0, 1) : Color)
                             else (0, 0, 1, 1),
                    disabled := true }) ∧
    ∀ k : Int × Int, k ≠ coords →
      dictGet k (l.grid.update_cell coords symbol).cells = dictGet k l.grid.cells := by
  refine ⟨rfl, ?_, ?_⟩
  · show dictGet coords (l.grid.cells.map fun e =>
        if e.1 = coords then (e.1, GameGrid.paintMove e.2 symbol) else e) = _
    rw [dictGet_updList, if_pos rfl]
    rfl
  · intro k hk
    show dictGet k (l.grid.cells.map fun e =>
        if e.1 = coords then (e.1, GameGrid.paintMove e.2 symbol) else e) = _
    rw [dictGet_updList, if_neg hk]

theorem C4_witness :
    ((0 : Int), (1 : Int)) ≠ ((0 : Int), (0 : Int)) ∧
    dictGet (0, 0) (sampleLayout.grid.update_cell (0, 0) "X").cells =
      (dictGet (0, 0) sampleLayout.grid.cells).map (fun cell =>
        { cell with text := "X",
                    color := if "X" = "X" then ((1, 0, 0, 1) : Color)
                             else (0, 0, 1, 1),
                    disabled := true }) ∧
    dictGet (0, 1) (sampleLayout.grid.update_cell (0, 0) "X").cells =
      dictGet (0, 1) sampleLayout.grid.cells :=
  ⟨by decide,
   (C4_update_cell_frame sampleLayout (0, 0) "X").2.1,
   (C4_update_cell_frame sampleLayout (0, 0) "X").2.2 (0, 1) (by decide)⟩

/-- C8: after `GameGrid.reset(board)`, every dict entry is repainted from the
obstacle mask at its own coordinate; on the grid built for the board this
covers every coordinate of `[0, rows) × [0, cols)`: an obstacle cell shows
"#" and is disabled, any other cell has empty text, is enabled, and has a
white background with black text color. -/
theorem C8_reset_paints_every_cell (board : Board) (hnd : Nat) (g : GameGrid)
    (i j : Nat) (hi : i < board.rows) (hj : j < board.cols) :
    (∀ cell : GameCell, dictGet ((i : Int), (j : Int)) g.cells = some cell →
      dictGet ((i : Int), (j : Int)) (g.reset board).cells =
        some (if board.is_obstacle i j then GameGrid.paintObstacle cell
              else GameGrid.paintBlank cell)) ∧
    (board.is_obstacle i j = true →
      dictGet ((i : Int), (j : Int)) (GameGrid.init board hnd).cells =
        some (GameGrid.paintObstacle ((GameCell.init i j).bindOnRelease hnd)) ∧
      (GameGrid.paintObstacle ((GameCell.init i j).bindOnRelease hnd)).text = "#" ∧
      (GameGrid.paintObstacle ((GameCell.init i j).bindOnRelease hnd)).disabled = true) ∧
    (board.is_obstacle i j = false →
      dictGet ((i : Int), (j : Int)) (GameGrid.init board hnd).cells =
        some (GameGrid.paintBlank ((GameCell.init i j).bindOnRelease hnd)) ∧
      (GameGrid.paintBlank ((GameCell.init i j).bindOnRelease hnd)).text = "" ∧
      (GameGrid.paintBlank ((GameCell.init i j).bindOnRelease hnd)).disabled = false ∧
      (GameGrid.paintBlank ((GameCell.init i j).bindOnRelease hnd)).background_color
        = (1, 1, 1, 1) ∧
      (GameGrid.paintBlank ((GameCell.init i j).bindOnRelease hnd)).color
        = (0, 0, 0, 1)) := by
  have hbase : dictGet ((i : Int), (j : Int)) (buildRows hnd board.cols board.rows) =
      some ((GameCell.init i j).bindOnRelease hnd) :=
    dictGet_buildRows_some hnd board.cols i j hj board.rows hi
  refine ⟨?_, ?_, ?_⟩
  · intro cell hc
    show dictGet ((i : Int), (j : Int)) (g.cells.map fun e =>
        (e.1, if board.is_obstacle e.1.1 e.1.2 then GameGrid.paintObstacle e.2
              else GameGrid.paintBlank e.2)) = _
    rw [dictGet_resetList, hc]
    rfl
  · intro hob
    refine ⟨?_, rfl, rfl⟩
    show dictGet ((i : Int), (j : Int))
        ((buildRows hnd board.cols board.rows).map fun e =>
          (e.1, if board.is_obstacle e.1.1 e.1.2 then GameGrid.paintObstacle e.2
                else GameGrid.paintBlank e.2)) = _
    rw [dictGet_resetList, hbase]
    simp [hob]
  · intro hob
    refine ⟨?_, rfl, rfl, rfl, rfl⟩
    show dictGet ((i : Int), (j : Int))
        ((buildRows hnd board.cols board.rows).map fun e =>
          (e.1, if board.is_obstacle e.1.1 e.1.2 then GameGrid.paintObstacle e.2
                else GameGrid.paintBlank e.2)) = _
    rw [dictGet_resetList, hbase]
    simp [hob]

theorem C8_witness :
    0 < smallBoard.rows ∧ 1 < smallBoard.cols ∧
    smallBoard.is_obstacle 0 1 = true ∧
    (dictGet ((0 : Int), (1 : Int)) (GameGrid.init smallBoard 0).cells =
        some (GameGrid.paintObstacle ((GameCell.init 0 1).bindOnRelease 0)) ∧
      (GameGrid.paintObstacle ((GameCell.init 0 1).bindOnRelease 0)).text = "#" ∧
      (GameGrid.paintObstacle ((GameCell.init 0 1).bindOnRelease 0)).disabled = true) ∧
    smallBoard.is_obstacle 0 0 = false ∧
    (dictGet ((0 : Int), (0 : Int)) (GameGrid.init smallBoard 0).cells =
        some (GameGrid.paintBlank ((GameCell.init 0 0).bindOnRelease 0)) ∧
      (GameGrid.paintBlank ((GameCell.init 0 0).bindOnRelease 0)).text = "" ∧
      (GameGrid.paintBlank ((GameCell.init 0 0).bindOnRelease 0)).disabled = false ∧
      (GameGrid.paintBlank ((GameCell.init 0 0).bindOnRelease 0)).background_color
        = (1, 1, 1, 1) ∧
      (GameGrid.paintBlank ((GameCell.init 0 0).bindOnRelease 0)).color
        = (0, 0, 0, 1)) :=
  ⟨by decide, by decide, by decide,
   (C8_reset_paints_every_cell smallBoard 0 (GameGrid.init smallBoard 0) 0 1
      (by decide) (by decide)).2.1 (by decide),
   by decide,
   (C8_reset_paints_every_cell smallBoard 0 (GameGrid.init smallBoard 0) 0 0
      (by decide) (by decide)).2.2 (by decide)⟩

/-- C10: after `GameGrid` construction the cell dict has exactly
`board.rows * board.cols` entries, keyed exactly by the row-major grid
coordinates (no repeats, nothing outside the range), every cell bound to the
supplied press handler; and no public grid operation (`reset`,
`update_cell`) adds or removes a key. -/
theorem C10_grid_dict_coverage (board : Board) (hnd : Nat) :
    (GameGrid.init board hnd).cells.map Prod.fst = board.allCoords ∧
    board.allCoords.Nodup ∧
    (GameGrid.init board hnd).cells.length = board.rows * board.cols ∧
    (∀ i j : Nat, i < board.rows → j < board.cols →
      dictGet ((i : Int), (j : Int)) (GameGrid.init board hnd).cells ≠ none) ∧
    (∀ x y : Int,
      ¬(0 ≤ x ∧ x < (board.rows : Int) ∧ 0 ≤ y ∧ y < (board.cols : Int)) →
      dictGet (x, y) (GameGrid.init board hnd).cells = none) ∧
    (∀ e ∈ (GameGrid.init board hnd).cells, e.2.on_release = some hnd) ∧
    (∀ (g : GameGrid) (bd : Board) (coords : Int × Int) (s : String),
      (g.reset bd).cells.map Prod.fst = g.cells.map Prod.fst ∧
      (g.update_cell coords s).cells.map Prod.fst = g.cells.map Prod.fst) := by
  refine ⟨?_, allCoords_nodup board, ?_, ?_, ?_, ?_, ?_⟩
  · show ((buildRows hnd board.cols board.rows).map fun e =>
        (e.1, if board.is_obstacle e.1.1 e.1.2 then GameGrid.paintObstacle e.2
              else GameGrid.paintBlank e.2)).map Prod.fst = _
    rw [keys_resetList, keys_buildRows]
    rfl
  · show ((buildRows hnd board.cols board.rows).map fun e =>
        (e.1, if board.is_obstacle e.1.1 e.1.2 then GameGrid.paintObstacle e.2
              else GameGrid.paintBlank e.2)).length = _
    rw [List.length_map, length_buildRows]
  · intro i j hi hj
    show dictGet _ ((buildRows hnd board.cols board.rows).map fun e =>
        (e.1, if board.is_obstacle e.1.1 e.1.2 then GameGrid.paintObstacle e.2
              else GameGrid.paintBlank e.2)) ≠ none
    rw [dictGet_resetList, dictGet_buildRows_some hnd board.cols i j hj board.rows hi]
    simp
  · intro x y hxy
    show dictGet _ ((buildRows hnd board.cols board.rows).map fun e =>
        (e.1, if board.is_obstacle e.1.1 e.1.2 then GameGrid.paintObstacle e.2
              else GameGrid.paintBlank e.2)) = none
    rw [dictGet_resetList, dictGet_buildRows_outside hnd board.cols board.rows x y hxy]
    rfl
  · intro e he
    have he' : e ∈ (buildRows hnd board.cols board.rows).map fun e =>
        (e.1, if board.is_obstacle e.1.1 e.1.2 then GameGrid.paintObstacle e.2
              else GameGrid.paintBlank e.2) := he
    rw [List.mem_map] at he'
    obtain ⟨e0, he0, rfl⟩ := he'
    rw [show ((e0.1, if board.is_obstacle e0.1.1 e0.1.2 then GameGrid.paintObstacle e0.2
          else GameGrid.paintBlank e0.2) : (Int × Int) × GameCell).2.on_release =
        (if board.is_obstacle e0.1.1 e0.1.2 then GameGrid.paintObstacle e0.2
          else GameGrid.paintBlank e0.2).on_release from rfl,
      onRelease_resetPaint board e0.1 e0.2]
    exact onRelease_buildRows hnd board.cols board.rows e0 he0
  · intro g bd coords s
    exact ⟨keys_resetList bd g.cells, keys_updList coords s g.cells⟩

theorem C10_witness :
    0 < smallBoard.rows ∧ 1 < smallBoard.cols ∧
    dictGet ((0 : Int), (1 : Int)) (GameGrid.init smallBoard 0).cells ≠ none ∧
    ¬((0 : Int) ≤ 5 ∧ (5 : Int) < (smallBoard.rows : Int) ∧
      (0 : Int) ≤ 0 ∧ (0 : Int) < (smallBoard.cols : Int)) ∧
    dictGet ((5 : Int), (0 : Int)) (GameGrid.init smallBoard 0).cells = none :=
  ⟨by decide, by decide,
   (C10_grid_dict_coverage smallBoard 0).2.2.2.1 0 1 (by decide) (by decide),
   by decide,
   (C10_grid_dict_coverage smallBoard 0).2.2.2.2.1 5 0 (by decide)⟩
